import Mathlib

/-!
# Verification of the Cookly recipe backend

Shallow embedding of the data model and operations of the Cookly backend
(Express + Mongoose recipe API) together with proofs about them.

Conventions of the embedding:
* Machine numbers are modelled as `Nat` / `Int` / `ℚ` (no overflow is
  relevant to the verified code paths; JavaScript numbers behave exactly
  on the small integers involved, and the single rating division is
  modelled over `ℚ`).
* JavaScript objects become Lean structures; `undefined` becomes `none`.
* MongoDB document ids are modelled as `Nat`.
* The ingredient search patterns `new RegExp(ing, "i")` are modelled for
  literal (metacharacter-free) patterns: a regex test is a
  case-insensitive substring test.
-/

namespace Cookly

/-! ## String utilities -/

/-- Substring test on character lists: `containsSub needle hay` is `true`
iff `needle` occurs contiguously inside `hay`. -/
def containsSub (needle hay : List Char) : Bool :=
  match hay with
  | [] => needle.isEmpty
  | _ :: t => needle.isPrefixOf hay || containsSub needle t

/-- Case-insensitive regex test for a literal pattern, as performed by
JavaScript `new RegExp(pat, "i").test(s)` when `pat` has no regex
metacharacters: the lowered pattern occurs as a substring of the lowered
string. -/
def regexTestCI (pat s : String) : Bool :=
  containsSub (pat.toList.map Char.toLower) (s.toList.map Char.toLower)

/-- The single-quote character, used to assemble source message strings. -/
def singleQuote : String := String.singleton (Char.ofNat 39)

/-! ## BSON values and the ingredient search aggregation

`Recipe.findByIngredients` (src/unnamed/part_005, lines 238-288) runs a
MongoDB aggregation pipeline.  The first `$match` stage uses the *query*
operator `$in`, which applies regex matching when the array holds regex
values.  The `$filter` inside `$addFields` uses the *aggregation*
operator `$in`, which compares by BSON equality and, per the MongoDB
manual, does not support matching by regular expressions — a BSON string
is never equal to a BSON regex value. -/

/-- Minimal BSON value model: the only values that appear in the
`matchCount` computation are strings (array elements of
`inputIngredients`) and regexes (the mapped search ingredients). -/
inductive BsonVal where
  | str (s : String)
  | regex (pattern : String) (options : String)
  deriving DecidableEq, Repr

/-- BSON equality as used by the aggregation `$in` operator: values of
different types are unequal; it performs no regex matching. -/
def bsonEq : BsonVal → BsonVal → Bool
  | BsonVal.str a, BsonVal.str b => a == b
  | BsonVal.regex p o, BsonVal.regex q r => p == q && o == r
  | _, _ => false

/-- The aggregation `$in` operator: membership of a value in an array by
BSON equality. -/
def aggIn (v : BsonVal) (arr : List BsonVal) : Bool :=
  arr.any (bsonEq v)

/-- Recipe document projection used by the search aggregation: the
stored free-text input-ingredient list, the public flag, and the default
secondary sort key `createdAt`. -/
structure RecipeDoc where
  inputIngredients : List String
  isPublic : Bool
  createdAt : Int
  deriving DecidableEq, Repr

/-- Query-context `$in` with a regex array, as used in the first
`$match` stage: some requested ingredient pattern matches the stored
string. -/
def queryInRegex (ingredients : List String) (s : String) : Bool :=
  ingredients.any (fun ing => regexTestCI ing s)

/-- The `matchCount` field added by `$addFields`: size of the `$filter`
of `inputIngredients` whose condition is the aggregation `$in` of the
element against the mapped regex array. -/
def matchCount (ingredients : List String) (r : RecipeDoc) : Nat :=
  (r.inputIngredients.filter
    (fun s => aggIn (BsonVal.str s)
      (ingredients.map (fun ing => BsonVal.regex ing "i")))).length

/-- Insertion step of a stable sort by a boolean "comes not after"
relation. -/
def insertLe {α : Type} (le : α → α → Bool) (x : α) : List α → List α
  | [] => [x]
  | y :: ys => if le x y then x :: y :: ys else y :: insertLe le x ys

/-- Insertion sort by a boolean relation; models the `$sort` stage (the
claims proved below depend only on membership, not on tie order). -/
def sortLe {α : Type} (le : α → α → Bool) : List α → List α
  | [] => []
  | x :: xs => insertLe le x (sortLe le xs)

/-- Sort relation of `findByIngredients`: `matchCount` descending, then
`createdAt` descending (the default `sortBy`/`sortOrder`). -/
def matchSortLe (p q : RecipeDoc × Nat) : Bool :=
  q.2 < p.2 || (p.2 == q.2 && q.1.createdAt ≤ p.1.createdAt)

/-- Static `Recipe.findByIngredients` (src/unnamed/part_005, lines 238-288):
the aggregation pipeline over the store, stage by stage —
`$match` (query `$in` over regexes, plus `isPublic`), `$addFields`
(`matchCount` via aggregation `$in`), `$match` (`matchCount ≥ minMatch`),
`$sort`, `$skip`, `$limit`. -/
def findByIngredients (store : List RecipeDoc) (ingredients : List String)
    (limit skip minMatch : Nat) : List (RecipeDoc × Nat) :=
  let stage1 := store.filter
    (fun r => r.inputIngredients.any (queryInRegex ingredients) && r.isPublic)
  let stage2 := stage1.map (fun r => (r, matchCount ingredients r))
  let stage3 := stage2.filter (fun p => minMatch ≤ p.2)
  let sorted := sortLe matchSortLe stage3
  (sorted.drop skip).take limit

/-! ## Recipe persistence model: cooking time, ratings, rating mutation

From the Mongoose recipe schema (src/unnamed/part_005): the pre-save
hook recomputing `cookingTime.total`, the `updateAverageRating` method,
and from the controller (src/unnamed/part_002, `rateRecipe`) the rating
mutation. -/

/-- The `cookingTime` sub-document; a field holds `none` when the JavaScript
value is `undefined`. -/
structure CookingTime where
  prep : Option Int
  cook : Option Int
  total : Option Int
  deriving DecidableEq, Repr

/-- One entry of the embedded `ratings` array. -/
structure Rating where
  user : Nat
  rating : Int
  comment : Option String
  createdAt : Nat
  deriving DecidableEq, Repr

/-- Recipe document projection carrying the fields touched by the
pre-save hook, `updateAverageRating`, and `rateRecipe`. -/
structure RecipeM where
  cookingTime : CookingTime
  ratings : List Rating
  averageRating : ℚ
  totalRatings : Nat
  deriving DecidableEq, Repr

/-- The `pre("save")` hook (src/unnamed/part_005, lines 209-217): when
both `prep` and `cook` are not `undefined`, set `total := prep + cook`;
otherwise leave the document unchanged. -/
def preSaveCookingTime (ct : CookingTime) : CookingTime :=
  match ct.prep, ct.cook with
  | some p, some c => { ct with total := some (p + c) }
  | _, _ => ct

/-- Persisting a recipe runs the pre-save hook on `cookingTime`. -/
def recipePreSave (r : RecipeM) : RecipeM :=
  { r with cookingTime := preSaveCookingTime r.cookingTime }

/-- Method `updateAverageRating` (src/unnamed/part_005, lines 220-229): on an
empty ratings list both derived fields become 0; otherwise
`averageRating := (reduce (+) ratings) / length` and
`totalRatings := length`. -/
def updateAverageRating (r : RecipeM) : RecipeM :=
  if r.ratings.length = 0 then
    { r with averageRating := 0, totalRatings := 0 }
  else
    let sum := r.ratings.foldl (fun acc rt => acc + (rt.rating : ℚ)) 0
    { r with averageRating := sum / (r.ratings.length : ℚ),
             totalRatings := r.ratings.length }

/-- The `findIndex`-then-assign part of `rateRecipe`: replace the fields
`rating`, `comment`, `createdAt` of the first entry whose `user` equals
the rater; `none` when no entry matches (`findIndex` returned -1). -/
def updateFirstRating (uid : Nat) (rating : Int) (comment : Option String)
    (now : Nat) : List Rating → Option (List Rating)
  | [] => none
  | rt :: rest =>
    if rt.user == uid then
      some ({ rt with rating := rating, comment := comment, createdAt := now } :: rest)
    else
      match updateFirstRating uid rating comment now rest with
      | some rest2 => some (rt :: rest2)
      | none => none

/-- The ratings-array mutation of `rateRecipe`: update the existing
rating of the rater when `findIndex` located one, otherwise push a new
entry. -/
def rateMutate (uid : Nat) (rating : Int) (comment : Option String)
    (now : Nat) (l : List Rating) : List Rating :=
  match updateFirstRating uid rating comment now l with
  | some l2 => l2
  | none => l ++ [⟨uid, rating, comment, now⟩]

/-- Controller `rateRecipe` mutation (src/unnamed/part_002, lines 712-754): update
the existing rating of the rater when present, otherwise push a new
entry; then `updateAverageRating()` and `save()` (which runs the
pre-save hook). -/
def rateRecipeUpdate (r : RecipeM) (uid : Nat) (rating : Int)
    (comment : Option String) (now : Nat) : RecipeM :=
  recipePreSave (updateAverageRating
    { r with ratings := rateMutate uid rating comment now r.ratings })

/-- Number of rating entries of a given user. -/
def countUser (uid : Nat) (l : List Rating) : Nat :=
  (l.filter (fun rt => rt.user == uid)).length

/-! ## Save / unsave recipe (src/unnamed/part_002, lines 366-449) -/

/-- User document projection for the save / unsave handlers. -/
structure UserS where
  id : Nat
  savedRecipes : List Nat
  deriving DecidableEq, Repr

/-- Recipe document projection for the save / unsave handlers. -/
structure RecipeS where
  id : Nat
  savedByUsers : List Nat
  deriving DecidableEq, Repr

/-- Handler `saveRecipe` (src/unnamed/part_002, lines 366-408), for an existing
recipe: if the recipe is already in the saved set respond 400 "Recipe
already saved" and change nothing; otherwise push the recipe id into
`savedRecipes`, push the user id into `savedByUsers` unless already
present, and respond 200. Result: (status, message, user, recipe). -/
def saveRecipe (user : UserS) (recipe : RecipeS) :
    Nat × String × UserS × RecipeS :=
  if user.savedRecipes.contains recipe.id then
    (400, "Recipe already saved", user, recipe)
  else
    let user2 := { user with savedRecipes := user.savedRecipes ++ [recipe.id] }
    let recipe2 :=
      if recipe.savedByUsers.contains user.id then recipe
      else { recipe with savedByUsers := recipe.savedByUsers ++ [user.id] }
    (200, "Recipe saved successfully", user2, recipe2)

/-- Handler `unsaveRecipe` (src/unnamed/part_002, lines 413-449), for an
existing recipe: filter the recipe id out of `savedRecipes`, filter the
user id out of `savedByUsers`, respond 200 unconditionally. -/
def unsaveRecipe (user : UserS) (recipe : RecipeS) :
    Nat × String × UserS × RecipeS :=
  let user2 := { user with
    savedRecipes := user.savedRecipes.filter (fun rid => rid != recipe.id) }
  let recipe2 := { recipe with
    savedByUsers := recipe.savedByUsers.filter (fun uid => uid != user.id) }
  (200, "Recipe removed from saved recipes", user2, recipe2)

/-! ## JSON values and the AI response parser (src/unnamed/part_010) -/

/-- JSON value model for the parsed remote reply. Numbers are modelled
as integers (the recipe payloads involved carry integers only). -/
inductive Json where
  | null
  | bool (b : Bool)
  | num (n : Int)
  | str (s : String)
  | arr (xs : List Json)
  | obj (fields : List (String × Json))
  deriving Repr

/-- JavaScript truthiness of a JSON value (`undefined` is handled by the
`Option Json` at use sites): `null`, `false`, `0` and `""` are falsy;
arrays and objects are truthy. -/
def jsTruthy : Json → Bool
  | Json.null => false
  | Json.bool b => b
  | Json.num n => n != 0
  | Json.str s => s != ""
  | Json.arr _ => true
  | Json.obj _ => true

/-- Property access `j.k`: `none` models `undefined` (missing field or
non-object receiver). -/
def jsGet : Json → String → Option Json
  | Json.obj fields, k =>
    match fields.find? (fun kv => kv.1 == k) with
    | some kv => some kv.2
    | none => none
  | _, _ => none

/-- Truthiness of `j.k`, where a missing field (`undefined`) is falsy. -/
def jsGetTruthy (j : Json) (k : String) : Bool :=
  match jsGet j k with
  | some v => jsTruthy v
  | none => false

/-- Test `Array.isArray(j.k)`, with `undefined` not an array. -/
def jsGetIsArray (j : Json) (k : String) : Bool :=
  match jsGet j k with
  | some (Json.arr _) => true
  | _ => false

/-- Access `j.k` defaulted by JavaScript `||`: the field value when truthy,
otherwise the default. -/
def jsGetOr (j : Json) (k : String) (dflt : Json) : Json :=
  match jsGet j k with
  | some v => if jsTruthy v then v else dflt
  | none => dflt

/-- Result shape produced by `parseRecipeResponse`: the recipe object
after field validation and default back-filling. -/
structure ParsedRecipe where
  title : Json
  description : Json
  ingredients : Json
  instructions : Json
  cookingTime : Json
  difficulty : Json
  cuisine : Json
  mealType : Json
  dietaryInfo : Json
  nutritionalInfo : Json
  tags : Json
  deriving Repr

/-- Function `getFallbackRecipe` (src/unnamed/part_010, lines 236-274): the
synthetic placeholder recipe; its single instruction step carries
`responseText || "Combine ingredients and cook as desired."`. -/
def getFallbackRecipe (responseText : String) : ParsedRecipe :=
  { title := Json.str "Generated Recipe"
    description := Json.str "A delicious recipe generated from your ingredients."
    ingredients := Json.arr [Json.obj
      [("name", Json.str "Main ingredients"),
       ("amount", Json.str "As needed"),
       ("unit", Json.str "")]]
    instructions := Json.arr [Json.obj
      [("stepNumber", Json.num 1),
       ("description", Json.str
         (if responseText = "" then "Combine ingredients and cook as desired."
          else responseText)),
       ("duration", Json.str "As needed")]]
    cookingTime := Json.obj
      [("prep", Json.num 15), ("cook", Json.num 30), ("total", Json.num 45)]
    difficulty := Json.str "medium"
    cuisine := Json.str ""
    mealType := Json.arr [Json.str "dinner"]
    dietaryInfo := Json.obj
      [("isVegetarian", Json.bool false), ("isVegan", Json.bool false),
       ("isGlutenFree", Json.bool false), ("isDairyFree", Json.bool false),
       ("isNutFree", Json.bool false), ("isLowCarb", Json.bool false)]
    nutritionalInfo := Json.obj []
    tags := Json.arr [Json.str "generated"] }

/-- The validation of `parseRecipeResponse` (src/unnamed/part_010, lines
199-211): `recipe.title`, `recipe.ingredients`, `recipe.instructions`
must all be truthy, and `ingredients` / `instructions` must be arrays;
otherwise an error is thrown and the catch returns the fallback. -/
def validRecipeJson (j : Json) : Bool :=
  jsGetTruthy j "title" && jsGetTruthy j "ingredients" &&
  jsGetTruthy j "instructions" &&
  jsGetIsArray j "ingredients" && jsGetIsArray j "instructions"

/-- Function `parseRecipeResponse` (src/unnamed/part_010, lines 187-234).
`parseResult` is the outcome of `JSON.parse` on the fence-stripped
response text — `none` when `JSON.parse` throws (the text is not valid
JSON); the JavaScript JSON parser itself is external to the repository.
On a parse failure or failed validation the catch branch returns
`getFallbackRecipe responseText` (with the raw, unstripped text);
otherwise optional fields are back-filled by `||` defaults. -/
def parseRecipeResponse (responseText : String) (parseResult : Option Json) :
    ParsedRecipe :=
  match parseResult with
  | none => getFallbackRecipe responseText
  | some j =>
    if validRecipeJson j then
      { title := (jsGet j "title").getD Json.null
        ingredients := (jsGet j "ingredients").getD Json.null
        instructions := (jsGet j "instructions").getD Json.null
        description := jsGetOr j "description" (Json.str "")
        difficulty := jsGetOr j "difficulty" (Json.str "medium")
        cuisine := jsGetOr j "cuisine" (Json.str "")
        mealType :=
          match jsGet j "mealType" with
          | some (Json.arr xs) => Json.arr xs
          | _ => Json.arr [jsGetOr j "mealType" (Json.str "dinner")]
        tags := jsGetOr j "tags" (Json.arr [])
        cookingTime := jsGetOr j "cookingTime" (Json.obj
          [("prep", Json.num 0), ("cook", Json.num 0), ("total", Json.num 0)])
        dietaryInfo := jsGetOr j "dietaryInfo" (Json.obj [])
        nutritionalInfo := jsGetOr j "nutritionalInfo" (Json.obj []) }
    else getFallbackRecipe responseText

/-! ## Profile update (src/unnamed/part_002, lines 202-234) -/

/-- Full user document, with schema fields as JSON values. -/
structure UserDocFull where
  name : Json
  email : Json
  password : Json
  avatar : Json
  preferences : Json
  savedRecipes : Json
  isActive : Json
  createdAt : Json
  lastLoginAt : Json
  deriving Repr

/-- List `allowedUpdates` of `updateProfile`. -/
def allowedUpdates : List String := ["name", "preferences", "avatar"]

/-- The filtered `updates` object: body keys restricted to
`allowedUpdates`. -/
def buildUpdates (body : List (String × Json)) : List (String × Json) :=
  body.filter (fun kv => allowedUpdates.contains kv.1)

/-- Application of one update entry by `findByIdAndUpdate`: set the
named top-level field. -/
def applyUpdate (u : UserDocFull) (kv : String × Json) : UserDocFull :=
  if kv.1 = "name" then { u with name := kv.2 }
  else if kv.1 = "preferences" then { u with preferences := kv.2 }
  else if kv.1 = "avatar" then { u with avatar := kv.2 }
  else u

/-- Handler `updateProfile` (src/unnamed/part_002, lines 202-234): build the
allowed-key update object from the request body and apply it to the
stored user document. -/
def updateProfile (u : UserDocFull) (body : List (String × Json)) : UserDocFull :=
  (buildUpdates body).foldl applyUpdate u

/-! ## Centralized error translator (src/unnamed/part_002, lines 791-1000)
and the fallback 404 (src/server.js, lines 265-270) -/

/-- Case-sensitive `String.prototype.includes`. -/
def strIncludes (hay needle : String) : Bool :=
  containsSub needle.toList hay.toList

/-- Expression `field.charAt(0).toUpperCase() + field.slice(1)`. -/
def capitalizeFirst (s : String) : String :=
  match s.toList with
  | [] => ""
  | c :: rest => String.mk (c.toUpper :: rest)

/-- The error value received by the translator. `message` uses `""` for
both the empty string and `undefined` (they are equally falsy at every
use site); other optional fields use `none` for `undefined`. `code` can
be a number (Mongo duplicate key) or a string (Multer / network codes),
modelled by two disjoint options. -/
structure JsError where
  name : String
  message : String
  value : String
  codeNum : Option Int
  codeStr : Option String
  status : Option Nat
  statusCode : Option Nat
  keyValue : List (String × String)
  validationMessages : List String
  errType : Option String
  isSyntaxError : Bool
  hasBodyProp : Bool
  stack : Option String

/-- Request fields read by the translator. -/
structure ReqInfo where
  originalUrl : String
  method : String
  id : Option String

/-- The `error` object mutated through the translation chain: only its
`message` and `statusCode` are read at the end. -/
structure ErrState where
  message : String
  statusCode : Option Nat

/-- Multer error message selection (src/unnamed/part_002, lines 845-855). -/
def multerMessage (code : Option String) : String :=
  if code == some "LIMIT_FILE_SIZE" then
    "File size too large. Maximum allowed size is 10MB."
  else if code == some "LIMIT_FILE_COUNT" then
    "Too many files uploaded."
  else if code == some "LIMIT_UNEXPECTED_FILE" then
    "Unexpected file field."
  else "File upload error"

/-- Per-status default messages of the `switch` block (src/unnamed
part_002, lines 923-966); `none` for statuses without a case. -/
def statusDefaultMessage : Nat → Option String
  | 400 => some "Bad request. Please check your input."
  | 401 => some "Unauthorized. Please authenticate."
  | 403 => some ("Forbidden. You don" ++ singleQuote ++
      "t have permission to access this resource.")
  | 404 => some "Resource not found."
  | 409 => some "Conflict. Resource already exists."
  | 422 => some "Unprocessable entity. Please check your input."
  | 500 => some "Internal server error. Please try again later."
  | 502 => some "Bad gateway. Please try again later."
  | 503 => some "Service temporarily unavailable. Please try again later."
  | 504 => some "Gateway timeout. Please try again later."
  | _ => none

/-- The sequential reclassification chain of `errorHandler`: `error`
starts as a spread of `err` (so it inherits `err.statusCode`) with
`error.message = err.message`; each matching test replaces it wholly,
later tests overriding earlier ones; the final `switch` only back-fills
a falsy message. -/
def errorHandlerState (err : JsError) : ErrState :=
  let e0 : ErrState := { message := err.message, statusCode := err.statusCode }
  let e1 := if err.name == "CastError" then
      { message := "Resource not found with id: " ++ err.value,
        statusCode := some 404 } else e0
  let e2 := if err.codeNum == some 11000 then
      match err.keyValue with
      | (f, v) :: _ =>
        { message := capitalizeFirst f ++ " " ++ singleQuote ++ v ++
            singleQuote ++ " already exists",
          statusCode := some 400 }
      | [] => e1  -- a real Mongo duplicate-key error always carries keyValue
      else e1
  let e3 := if err.name == "ValidationError" then
      { message := String.intercalate ", " err.validationMessages,
        statusCode := some 400 } else e2
  let e4 := if err.name == "JsonWebTokenError" then
      { message := "Invalid authentication token. Please log in again.",
        statusCode := some 401 } else e3
  let e5 := if err.name == "TokenExpiredError" then
      { message := "Authentication token has expired. Please log in again.",
        statusCode := some 401 } else e4
  let e6 := if err.name == "MulterError" then
      { message := multerMessage err.codeStr, statusCode := some 400 } else e5
  let e7 := if strIncludes err.message "Azure OpenAI" ||
      strIncludes err.message "OpenAI" then
      { message := "AI service is temporarily unavailable. Please try again later.",
        statusCode := some 503 } else e6
  let e8 := if err.status == some 429 || err.statusCode == some 429 then
      { message := "Too many requests. Please slow down and try again later.",
        statusCode := some 429 } else e7
  let e9 := if err.name == "MongoError" || err.name == "MongooseError" then
      { message := "Database connection error. Please try again later.",
        statusCode := some 503 } else e8
  let e10 := if err.codeStr == some "ECONNRESET" ||
      err.codeStr == some "ETIMEDOUT" || err.codeStr == some "ENOTFOUND" then
      { message := "Network connection error. Please check your internet connection and try again.",
        statusCode := some 503 } else e9
  let e11 := if err.errType == some "entity.too.large" then
      { message := "Request payload too large. Please reduce the size of your request.",
        statusCode := some 413 } else e10
  let e12 := if err.isSyntaxError && err.status == some 400 && err.hasBodyProp then
      { message := "Invalid JSON format in request body.",
        statusCode := some 400 } else e11
  let e13 := if strIncludes err.message "CORS" then
      { message := "Cross-origin request blocked. Please check your request headers.",
        statusCode := some 403 } else e12
  let sc := match err.statusCode with
    | some n => some n
    | none => err.status
  match sc with
  | none => e13
  | some n =>
    match statusDefaultMessage n with
    | some d => if e13.message == "" then { e13 with message := d } else e13
    | none => e13

/-- The `error` member of the canonical error envelope. -/
structure ErrorObj where
  type : String
  timestamp : String
  path : String
  method : String
  requestId : Option String
  stack : Option String
  details : Option JsError

/-- JSON response body of the failure shape: `error = none` models a
body with no `error` member at all. -/
structure Envelope where
  success : Bool
  message : String
  error : Option ErrorObj

/-- An HTTP response: status code plus JSON body. -/
structure HttpResponse where
  status : Nat
  body : Envelope

/-- Middleware `errorHandler` (src/unnamed/part_002, lines 791-1000): run the
reclassification chain, default the status to 500 and the message to
the generic text, and emit the canonical envelope; `stack` and
`details` only in development mode. -/
def errorHandler (err : JsError) (req : ReqInfo) (nodeEnv : String)
    (now : String) : HttpResponse :=
  let e := errorHandlerState err
  let statusCode := e.statusCode.getD 500
  let message := if e.message == "" then
      "An unexpected error occurred. Please try again later." else e.message
  { status := statusCode
    body :=
      { success := false
        message := message
        error := some
          { type := if err.name == "" then "UnknownError" else err.name
            timestamp := now
            path := req.originalUrl
            method := req.method
            requestId := req.id
            stack := if nodeEnv == "development" then err.stack else none
            details := if nodeEnv == "development" then some err else none } } }

/-- The fallback 404 handler `app.use("*")` (src/server.js, lines
265-270): a fixed body with `success` and `message` only — it has no
`error` member. -/
def notFoundHandler : HttpResponse :=
  { status := 404
    body := { success := false, message := "API endpoint not found", error := none } }

/-! ## Timeout guard (src/src/middleware/timeout.js, lines 5-47)

The guard is modelled as a state machine over the per-request events
that can reach it: the one-shot timer firing, and the (wrapped)
response-send methods running.  Durations are abstracted into the event
order; the claim is about how many responses are produced. -/

/-- Events seen by one request: the timer fires, or the handler sends a
response with some status code through the wrapped
`res.send` / `res.json` / `res.end`. -/
inductive TEvent where
  | timerFire
  | respond (code : Nat)
  deriving DecidableEq, Repr

/-- Per-request guard state: `headersSent` mirrors `res.headersSent`,
`timerCancelled` records `clearTimeout`, `timerFired` makes the timer
one-shot, and `responses` lists the status codes actually sent. -/
structure TimeoutState where
  headersSent : Bool
  timerCancelled : Bool
  timerFired : Bool
  responses : List Nat
  deriving DecidableEq, Repr

/-- State before any event. -/
def timeoutInit : TimeoutState :=
  { headersSent := false, timerCancelled := false, timerFired := false,
    responses := [] }

/-- One event step.  A handler response runs the wrapped send: it clears
the timer and sends.  The timer callback fires at most once, never after
`clearTimeout`, and sends the 408 only when `!res.headersSent`; its own
`res.status(408).json(...)` goes through the wrapped `res.json`, so it
also clears the timer and marks headers sent. -/
def timeoutStep (s : TimeoutState) (e : TEvent) : TimeoutState :=
  match e with
  | TEvent.respond code =>
    { s with headersSent := true, timerCancelled := true,
             responses := s.responses ++ [code] }
  | TEvent.timerFire =>
    if s.timerFired || s.timerCancelled then s
    else if s.headersSent then { s with timerFired := true }
    else
      { s with timerFired := true, headersSent := true,
               timerCancelled := true, responses := s.responses ++ [408] }

/-- Run a request event trace from the initial state. -/
def timeoutRun (es : List TEvent) : TimeoutState :=
  es.foldl timeoutStep timeoutInit

/-! ## Rate limiting (src/unnamed/part_004, lines 73-124) -/

/-- A rate-limit policy as configured by `createRateLimit`. -/
structure RateLimitPolicy where
  windowMs : Nat
  max : Nat
  message : String
  deriving DecidableEq, Repr

/-- Factory `createRateLimit(windowMs, max, message)`. -/
def createRateLimit (windowMs max : Nat) (message : String) : RateLimitPolicy :=
  { windowMs := windowMs, max := max, message := message }

/-- Policy `authRateLimit`: 15 minutes, 5 attempts. -/
def authRateLimit : RateLimitPolicy :=
  createRateLimit (15 * 60 * 1000) 5
    "Too many authentication attempts. Please try again later."

/-- Policy `apiRateLimit`: 15 minutes, 100 requests. -/
def apiRateLimit : RateLimitPolicy :=
  createRateLimit (15 * 60 * 1000) 100
    "Too many API requests. Please slow down."

/-- Policy `aiRateLimit`: 1 minute, 10 requests. -/
def aiRateLimit : RateLimitPolicy :=
  createRateLimit (60 * 1000) 10
    "Too many AI generation requests. Please wait before generating more recipes."

/-- Body of the 429 response produced by the configured `handler`. -/
structure RateLimitResponse where
  status : Nat
  success : Bool
  message : String
  errType : String
  retryAfter : Nat
  deriving DecidableEq, Repr

/-- The `handler` of `createRateLimit` (src/unnamed/part_004, lines
89-103): a 429 with `retryAfter: Math.ceil(windowMs / 1000)` — a value
computed from the window length alone, independent of any counter
state. -/
def rateLimitHandler (p : RateLimitPolicy) : RateLimitResponse :=
  { status := 429, success := false, message := p.message,
    errType := "RateLimitError", retryAfter := (p.windowMs + 999) / 1000 }

/-- Modelled from the spec: per-client window counter of the external
`express-rate-limit` library (not part of this repository): requests in
the current window are counted; once the window length has elapsed the
counter resets and a new window starts on its period. -/
structure LimiterState where
  windowStart : Nat
  count : Nat
  deriving DecidableEq, Repr

/-- Modelled from the spec: one request through the limiter at absolute
time `t` (milliseconds).  An expired window rolls forward to the period
containing `t` with a fresh counter; a request beyond `max` is answered
by the repository-configured `handler` above. -/
def limiterStep (p : RateLimitPolicy) (s : LimiterState) (t : Nat) :
    LimiterState × Option RateLimitResponse :=
  let s1 := if s.windowStart + p.windowMs ≤ t then
      { windowStart := s.windowStart + p.windowMs * ((t - s.windowStart) / p.windowMs),
        count := 0 }
    else s
  if s1.count < p.max then
    ({ s1 with count := s1.count + 1 }, none)
  else
    (s1, some (rateLimitHandler p))

/-- Spec-side quantity for comparison: the number of seconds until the
current window resets, from the spec sentence "retryAfter (seconds
until window reset)". -/
def specSecondsUntilWindowReset (p : RateLimitPolicy) (s : LimiterState)
    (t : Nat) : Nat :=
  (s.windowStart + p.windowMs - t + 999) / 1000

/-! ## Route wiring of the rate limiters

Which policy actually guards which endpoint is determined by the mount
points: `app.use("/api/", apiRateLimit)` (src/server.js, line 105) and
the per-route stacks of the routers (src/unnamed/part_007, lines 80-84;
src/unnamed/part_008, lines 96-107; src/unnamed/part_009, line 54).
`aiRateLimit` is exported by src/unnamed/part_004 but imported by no
router and appears in no stack. -/

/-- A middleware reference as it appears in a route registration; only
the rate-limit entries matter for the wiring facts, the others are
named placeholders for the gates, validator arrays and handlers. -/
inductive Middleware where
  | rateLimit (p : RateLimitPolicy)
  | authGate
  | optionalAuthGate
  | validators (name : String)
  | handlerFn (name : String)
  deriving DecidableEq, Repr

/-- Application-level middleware mounted on the "/api/" prefix
(src/server.js, line 105): the general API rate limiter. -/
def apiMountMiddlewares : List Middleware := [Middleware.rateLimit apiRateLimit]

/-- Route stacks of the auth router (src/unnamed/part_007, lines
80-84), with the "/api/auth" mount prefix folded into the paths. -/
def authRouterRoutes : List (String × String × List Middleware) :=
  [("POST", "/api/auth/register",
     [Middleware.rateLimit authRateLimit,
      Middleware.validators "registerValidation", Middleware.handlerFn "register"]),
   ("POST", "/api/auth/login",
     [Middleware.rateLimit authRateLimit,
      Middleware.validators "loginValidation", Middleware.handlerFn "login"]),
   ("GET", "/api/auth/me", [Middleware.authGate, Middleware.handlerFn "getMe"]),
   ("PUT", "/api/auth/profile",
     [Middleware.authGate, Middleware.validators "updateProfileValidation",
      Middleware.handlerFn "updateProfile"]),
   ("PUT", "/api/auth/change-password",
     [Middleware.authGate, Middleware.validators "changePasswordValidation",
      Middleware.handlerFn "changePassword"])]

/-- Route stacks of the recipes router (src/unnamed/part_008, lines
96-107), with the "/api/recipes" mount prefix folded into the paths.
Line 96 registers only the auth gate, the validator array and the
handler on "/generate" — no rate limiter. -/
def recipeRouterRoutes : List (String × String × List Middleware) :=
  [("POST", "/api/recipes/generate",
     [Middleware.authGate, Middleware.validators "generateRecipeValidation",
      Middleware.handlerFn "generateRecipe"]),
   ("POST", "/api/recipes/search-by-ingredients",
     [Middleware.validators "searchByIngredientsValidation",
      Middleware.handlerFn "getRecipesByIngredients"]),
   ("GET", "/api/recipes/saved",
     [Middleware.authGate, Middleware.handlerFn "getSavedRecipes"]),
   ("GET", "/api/recipes", [Middleware.handlerFn "getRecipes"]),
   ("GET", "/api/recipes/:id",
     [Middleware.optionalAuthGate, Middleware.handlerFn "getRecipe"]),
   ("POST", "/api/recipes/:id/save",
     [Middleware.authGate, Middleware.handlerFn "saveRecipe"]),
   ("DELETE", "/api/recipes/:id/save",
     [Middleware.authGate, Middleware.handlerFn "unsaveRecipe"]),
   ("POST", "/api/recipes/:id/rate",
     [Middleware.authGate, Middleware.validators "rateRecipeValidation",
      Middleware.handlerFn "rateRecipe"])]

/-- Route stack of the users router (src/unnamed/part_009, line 54). -/
def userRouterRoutes : List (String × String × List Middleware) :=
  [("GET", "/api/users/:id",
     [Middleware.optionalAuthGate, Middleware.handlerFn "getUserProfile"])]

/-- All /api routes with their full middleware stacks: the app-level
"/api/" mount runs before every router stack (src/server.js, lines 105
and 112-114). -/
def apiRouteTable : List (String × String × List Middleware) :=
  (authRouterRoutes ++ recipeRouterRoutes ++ userRouterRoutes).map
    (fun r => (r.1, r.2.1, apiMountMiddlewares ++ r.2.2))

/-- The rate-limit policies a middleware stack actually runs, in
order. -/
def rateLimitersApplied (stack : List Middleware) : List RateLimitPolicy :=
  stack.filterMap (fun m => match m with
    | Middleware.rateLimit p => some p
    | _ => none)

/-- The rate-limit policies guarding a given method and path of the
route table. -/
def routeLimiters (method path : String) : List RateLimitPolicy :=
  match apiRouteTable.find? (fun r => r.1 == method && r.2.1 == path) with
  | some r => rateLimitersApplied r.2.2
  | none => []

/-! ## Spec-side comparison definitions -/

/-- Modelled from the spec's words: the arithmetic mean of the rating
values of a ratings list, taken to be 0 for an empty list
("averageRating == mean(ratings[].rating) ... both are 0 when ratings
is empty"). -/
def specMeanRating (l : List Rating) : ℚ :=
  if l.length = 0 then 0
  else (l.map (fun rt => (rt.rating : ℚ))).sum / (l.length : ℚ)

/-! # Theorems -/

/-! ### Helper lemmas -/

theorem sortLe_mem {α : Type} (le : α → α → Bool) (x : α) :
    ∀ l : List α, x ∈ sortLe le l ↔ x ∈ l := by
  have hins : ∀ (y : α) (l : List α), x ∈ insertLe le y l ↔ x = y ∨ x ∈ l := by
    intro y l
    induction l with
    | nil => simp [insertLe]
    | cons z zs ih =>
      simp only [insertLe]
      split
      · simp
      · simp [ih]
        tauto
  intro l
  induction l with
  | nil => simp [sortLe]
  | cons y ys ih =>
    simp [sortLe, hins, ih]

theorem sortLe_length {α : Type} (le : α → α → Bool) :
    ∀ l : List α, (sortLe le l).length = l.length := by
  have hins : ∀ (y : α) (l : List α), (insertLe le y l).length = l.length + 1 := by
    intro y l
    induction l with
    | nil => rfl
    | cons z zs ih =>
      simp only [insertLe]
      split
      · rfl
      · simp [ih]
  intro l
  induction l with
  | nil => rfl
  | cons y ys ih =>
    simp [sortLe, hins, ih]

theorem aggIn_str_regexes (s : String) :
    ∀ pats : List String,
      aggIn (BsonVal.str s) (pats.map (fun ing => BsonVal.regex ing "i")) = false := by
  intro pats
  induction pats with
  | nil => rfl
  | cons p ps ih =>
    simp only [List.map_cons, aggIn, List.any_cons] at ih ⊢
    simp [bsonEq, ih]

theorem matchCount_eq_zero (ingredients : List String) (r : RecipeDoc) :
    matchCount ingredients r = 0 := by
  unfold matchCount
  have h : ∀ s : String,
      (fun s => aggIn (BsonVal.str s)
        (ingredients.map (fun ing => BsonVal.regex ing "i"))) s = false := by
    intro s
    exact aggIn_str_regexes s ingredients
  rw [List.filter_eq_nil_iff.mpr]
  · rfl
  · intro a _
    simp [aggIn_str_regexes]

/-- The search aggregation drops every candidate whenever `minMatch ≥ 1`,
because the aggregation-context `$in` never regex-matches, so every
`matchCount` is 0. -/
theorem findByIngredients_always_empty (store : List RecipeDoc)
    (ingredients : List String) (limit skip minMatch : Nat)
    (h : 1 ≤ minMatch) :
    findByIngredients store ingredients limit skip minMatch = [] := by
  unfold findByIngredients
  have h3 : (List.filter (fun p => decide (minMatch ≤ p.2))
      ((store.filter (fun r =>
        r.inputIngredients.any (queryInRegex ingredients) && r.isPublic)).map
        (fun r => (r, matchCount ingredients r)))) = [] := by
    apply List.filter_eq_nil_iff.mpr
    intro p hp
    rcases List.mem_map.mp hp with ⟨a, _, ha⟩
    have h2 : p.2 = 0 := by
      rw [← ha]
      exact matchCount_eq_zero ingredients a
    simp [h2]
    omega
  simp only [h3, sortLe]
  simp

theorem findByIngredients_always_empty_witness :
    findByIngredients [⟨["tomato"], true, 5⟩] ["tomato"] 10 0 1 = [] :=
  findByIngredients_always_empty _ _ 10 0 1 (by decide)

/-! ### C1 — ingredient search at the spec's concrete scenario -/

/-- C1: A store holding exactly one public recipe with inputIngredients
`["chicken","broccoli"]`, searched with `["chicken","rice"]`, default
`limit=10`, `skip=0`.  The recipe passes the candidate `$match` stage
(`queryInRegex` is true for its "chicken" entry), so the claimed
scenario is reached, yet its `matchCount` aggregates to 0 (the
aggregation `$in` does not regex-match), so both `minMatch=1` and
`minMatch=2` return the empty list — the code never returns the recipe
with match count 1 as the spec claims. -/
theorem findByIngredients_bug :
    findByIngredients [⟨["chicken", "broccoli"], true, 0⟩] ["chicken", "rice"] 10 0 1
      = [] ∧
    findByIngredients [⟨["chicken", "broccoli"], true, 0⟩] ["chicken", "rice"] 10 0 2
      = [] ∧
    queryInRegex ["chicken", "rice"] "chicken" = true ∧
    matchCount ["chicken", "rice"] ⟨["chicken", "broccoli"], true, 0⟩ = 0 := by
  refine ⟨?_, ?_, ?_, ?_⟩
  · exact findByIngredients_always_empty _ _ 10 0 1 (by decide)
  · exact findByIngredients_always_empty _ _ 10 0 2 (by decide)
  · decide
  · exact matchCount_eq_zero _ _

/-! ### C5 — cooking-time total recomputed on persist -/

/-- C5: after a persist (the `pre("save")` hook), whenever `prep` and
`cook` are defined, `cookingTime.total` equals `prep + cook` (and the
two summands are unchanged). -/
theorem cookingTime_total_after_persist (r : RecipeM) (p c : Int)
    (hp : r.cookingTime.prep = some p) (hc : r.cookingTime.cook = some c) :
    (recipePreSave r).cookingTime.prep = some p ∧
    (recipePreSave r).cookingTime.cook = some c ∧
    (recipePreSave r).cookingTime.total = some (p + c) := by
  unfold recipePreSave preSaveCookingTime
  rw [hp, hc]
  exact ⟨rfl, rfl, rfl⟩

theorem cookingTime_total_after_persist_witness :
    (recipePreSave ⟨⟨some 5, some 7, some 0⟩, [], 0, 0⟩).cookingTime.prep = some 5 ∧
    (recipePreSave ⟨⟨some 5, some 7, some 0⟩, [], 0, 0⟩).cookingTime.cook = some 7 ∧
    (recipePreSave ⟨⟨some 5, some 7, some 0⟩, [], 0, 0⟩).cookingTime.total = some 12 :=
  cookingTime_total_after_persist ⟨⟨some 5, some 7, some 0⟩, [], 0, 0⟩ 5 7 rfl rfl

/-! ### C8 — save / unsave idempotence -/

/-- C8: unsaving a recipe absent from the saved relation succeeds (200)
and changes neither document; saving an already-saved recipe responds
400 "Recipe already saved" and changes nothing. -/
theorem save_unsave_idempotence (u : UserS) (r : RecipeS) :
    (u.savedRecipes.contains r.id = false → r.savedByUsers.contains u.id = false →
      unsaveRecipe u r = (200, "Recipe removed from saved recipes", u, r)) ∧
    (u.savedRecipes.contains r.id = true →
      saveRecipe u r = (400, "Recipe already saved", u, r)) := by
  constructor
  · intro h1 h2
    unfold unsaveRecipe
    have hmem1 : r.id ∉ u.savedRecipes := by simpa using h1
    have hmem2 : u.id ∉ r.savedByUsers := by simpa using h2
    have hu : u.savedRecipes.filter (fun rid => rid != r.id) = u.savedRecipes := by
      apply List.filter_eq_self.mpr
      intro a ha
      simp only [bne_iff_ne, ne_eq, decide_eq_true_eq]
      intro he
      exact hmem1 (he ▸ ha)
    have hr : r.savedByUsers.filter (fun uid => uid != u.id) = r.savedByUsers := by
      apply List.filter_eq_self.mpr
      intro a ha
      simp only [bne_iff_ne, ne_eq, decide_eq_true_eq]
      intro he
      exact hmem2 (he ▸ ha)
    rw [hu, hr]
  · intro h1
    unfold saveRecipe
    rw [h1]
    rfl

theorem save_unsave_idempotence_witness :
    unsaveRecipe ⟨1, [7]⟩ ⟨9, [4]⟩ = (200, "Recipe removed from saved recipes", ⟨1, [7]⟩, ⟨9, [4]⟩) ∧
    saveRecipe ⟨1, [9]⟩ ⟨9, [1]⟩ = (400, "Recipe already saved", ⟨1, [9]⟩, ⟨9, [1]⟩) :=
  ⟨(save_unsave_idempotence ⟨1, [7]⟩ ⟨9, [4]⟩).1 (by decide) (by decide),
   (save_unsave_idempotence ⟨1, [9]⟩ ⟨9, [1]⟩).2 (by decide)⟩

/-! ### C10 — profile update frame -/

theorem applyUpdate_frame (u : UserDocFull) (kv : String × Json) :
    (applyUpdate u kv).email = u.email ∧
    (applyUpdate u kv).password = u.password ∧
    (applyUpdate u kv).savedRecipes = u.savedRecipes ∧
    (applyUpdate u kv).isActive = u.isActive ∧
    (applyUpdate u kv).createdAt = u.createdAt ∧
    (applyUpdate u kv).lastLoginAt = u.lastLoginAt := by
  unfold applyUpdate
  split
  · exact ⟨rfl, rfl, rfl, rfl, rfl, rfl⟩
  · split
    · exact ⟨rfl, rfl, rfl, rfl, rfl, rfl⟩
    · split
      · exact ⟨rfl, rfl, rfl, rfl, rfl, rfl⟩
      · exact ⟨rfl, rfl, rfl, rfl, rfl, rfl⟩

theorem foldl_applyUpdate_frame (l : List (String × Json)) :
    ∀ u : UserDocFull,
    (l.foldl applyUpdate u).email = u.email ∧
    (l.foldl applyUpdate u).password = u.password ∧
    (l.foldl applyUpdate u).savedRecipes = u.savedRecipes ∧
    (l.foldl applyUpdate u).isActive = u.isActive ∧
    (l.foldl applyUpdate u).createdAt = u.createdAt ∧
    (l.foldl applyUpdate u).lastLoginAt = u.lastLoginAt := by
  induction l with
  | nil =>
    intro u
    exact ⟨rfl, rfl, rfl, rfl, rfl, rfl⟩
  | cons kv rest ih =>
    intro u
    have h1 := ih (applyUpdate u kv)
    have h2 := applyUpdate_frame u kv
    simp only [List.foldl_cons]
    exact ⟨h1.1.trans h2.1, h1.2.1.trans h2.2.1, h1.2.2.1.trans h2.2.2.1,
      h1.2.2.2.1.trans h2.2.2.2.1, h1.2.2.2.2.1.trans h2.2.2.2.2.1,
      h1.2.2.2.2.2.trans h2.2.2.2.2.2⟩

/-- C10: `updateProfile` can change only `name`, `preferences` and
`avatar`; `email`, `password`, `savedRecipes`, `isActive` and the
timestamps are unchanged for every request body. -/
theorem updateProfile_frame (u : UserDocFull) (body : List (String × Json)) :
    (updateProfile u body).email = u.email ∧
    (updateProfile u body).password = u.password ∧
    (updateProfile u body).savedRecipes = u.savedRecipes ∧
    (updateProfile u body).isActive = u.isActive ∧
    (updateProfile u body).createdAt = u.createdAt ∧
    (updateProfile u body).lastLoginAt = u.lastLoginAt :=
  foldl_applyUpdate_frame (buildUpdates body) u

/-! ### C2 — error envelope shape -/

/-- C2 (amended): every response of the centralized error translator
has `success = false`, a nonempty message, and an `error` object whose
`type` is `err.name` defaulted to `"UnknownError"` — but the fallback
404 does not carry the `error` object (see the counterexample). -/
theorem errorHandler_envelope (err : JsError) (req : ReqInfo)
    (nodeEnv now : String) :
    (errorHandler err req nodeEnv now).body.success = false ∧
    (errorHandler err req nodeEnv now).body.message ≠ "" ∧
    ((errorHandler err req nodeEnv now).body.error.map ErrorObj.type) =
      some (if err.name == "" then "UnknownError" else err.name) := by
  refine ⟨rfl, ?_, rfl⟩
  have h : ∀ m : String,
      (if m == "" then
        "An unexpected error occurred. Please try again later." else m) ≠ "" := by
    intro m
    split
    · decide
    · rename_i hm
      simpa using hm
  exact h (errorHandlerState err).message

theorem errorHandler_envelope_witness :
    (errorHandler ⟨"CastError", "", "abc", none, none, none, none, [], [],
        none, false, false, none⟩ ⟨"/api/recipes/abc", "GET", some "r1"⟩
        "production" "t").body.success = false ∧
    (errorHandler ⟨"CastError", "", "abc", none, none, none, none, [], [],
        none, false, false, none⟩ ⟨"/api/recipes/abc", "GET", some "r1"⟩
        "production" "t").body.message ≠ "" ∧
    ((errorHandler ⟨"CastError", "", "abc", none, none, none, none, [], [],
        none, false, false, none⟩ ⟨"/api/recipes/abc", "GET", some "r1"⟩
        "production" "t").body.error.map ErrorObj.type) =
      some (if ("CastError" : String) == "" then "UnknownError" else "CastError") :=
  errorHandler_envelope _ _ "production" "t"

/-- C2 counterexample: the fallback 404 is a non-2xx JSON response whose
body has `success:false` and a message but no `error` member at all, so
the claimed invariant fails on it. -/
theorem notFound_envelope_counterexample :
    notFoundHandler.status = 404 ∧
    notFoundHandler.body.success = false ∧
    notFoundHandler.body.error = none :=
  ⟨rfl, rfl, rfl⟩

/-! ### C9 — rate-limit policies and the 429 body -/

/-- C9 (amended): three policies are *configured* with the claimed
windows and maxima, but only two are mounted: the general policy on the
"/api/" prefix and the auth policy on register and login.  The
AI-generation policy guards no route — `POST /api/recipes/generate` is
limited only by the general policy, and `aiRateLimit` appears in no
route's middleware stack.  Every request blocked by a mounted policy is
answered 429 with a body whose `retryAfter` equals the *full window
length* in seconds, `Math.ceil(windowMs / 1000)` — an upper bound on,
not the actual, time until the window resets. -/
theorem rateLimit_policies_and_429 :
    ((apiRateLimit.windowMs = 15 * 60 * 1000 ∧ apiRateLimit.max = 100) ∧
     (authRateLimit.windowMs = 15 * 60 * 1000 ∧ authRateLimit.max = 5) ∧
     (aiRateLimit.windowMs = 60 * 1000 ∧ aiRateLimit.max = 10)) ∧
    (routeLimiters "POST" "/api/auth/register" = [apiRateLimit, authRateLimit] ∧
     routeLimiters "POST" "/api/auth/login" = [apiRateLimit, authRateLimit] ∧
     routeLimiters "POST" "/api/recipes/generate" = [apiRateLimit] ∧
     (∀ r ∈ apiRouteTable, aiRateLimit ∉ rateLimitersApplied r.2.2)) ∧
    (∀ (p : RateLimitPolicy) (s : LimiterState) (t : Nat)
      (resp : RateLimitResponse), (limiterStep p s t).2 = some resp →
      resp.status = 429 ∧ resp.success = false ∧
      resp.errType = "RateLimitError" ∧
      resp.retryAfter = (p.windowMs + 999) / 1000) := by
  refine ⟨⟨⟨rfl, rfl⟩, ⟨rfl, rfl⟩, ⟨rfl, rfl⟩⟩, ⟨by decide, by decide, by decide, by decide⟩, ?_⟩
  intro p s t resp h
  unfold limiterStep at h
  simp only at h
  split at h
  · split at h
    · simp at h
    · rw [← Option.some.inj h]
      exact ⟨rfl, rfl, rfl, rfl⟩
  · split at h
    · simp at h
    · rw [← Option.some.inj h]
      exact ⟨rfl, rfl, rfl, rfl⟩

theorem rateLimit_policies_and_429_witness :
    ((rateLimitHandler aiRateLimit).status = 429 ∧
     (rateLimitHandler aiRateLimit).success = false ∧
     (rateLimitHandler aiRateLimit).errType = "RateLimitError" ∧
     (rateLimitHandler aiRateLimit).retryAfter = (aiRateLimit.windowMs + 999) / 1000) ∧
    aiRateLimit ∉ rateLimitersApplied
      (apiMountMiddlewares ++
        [Middleware.authGate, Middleware.validators "generateRecipeValidation",
         Middleware.handlerFn "generateRecipe"]) :=
  ⟨rateLimit_policies_and_429.2.2 aiRateLimit ⟨0, 10⟩ 30000
      (rateLimitHandler aiRateLimit) (by decide),
   rateLimit_policies_and_429.2.1.2.2.2
      ("POST", "/api/recipes/generate",
        apiMountMiddlewares ++
          [Middleware.authGate, Middleware.validators "generateRecipeValidation",
           Middleware.handlerFn "generateRecipe"]) (by decide)⟩

/-- C9 counterexample: the AI-generation route is guarded only by the
general API policy — `aiRateLimit` is not among its limiters (it is
mounted nowhere), so the 10-per-minute policy does not apply to it; and
even where a policy is mounted, a request blocked 30 seconds into a
one-minute window carries `retryAfter = 60` while the window actually
resets in 30 seconds — `retryAfter` is not the seconds until the window
resets. -/
theorem rateLimit_retryAfter_counterexample :
    routeLimiters "POST" "/api/recipes/generate" = [apiRateLimit] ∧
    (routeLimiters "POST" "/api/recipes/generate").contains aiRateLimit = false ∧
    ((List.replicate 10 0).foldl
      (fun s t => (limiterStep aiRateLimit s t).1) ⟨0, 0⟩) = ⟨0, 10⟩ ∧
    ((limiterStep aiRateLimit ⟨0, 10⟩ 30000).2.map RateLimitResponse.retryAfter)
      = some 60 ∧
    specSecondsUntilWindowReset aiRateLimit ⟨0, 10⟩ 30000 = 30 ∧
    (60 : Nat) ≠ 30 := by
  refine ⟨by decide, by decide, by decide, by decide, by decide, by decide⟩

/-! ### C3 — timeout guard sends exactly one 408, never two -/

theorem foldl_timeoutStep_fired (es : List TEvent) :
    ∀ s : TimeoutState, (∀ e ∈ es, e = TEvent.timerFire) →
      s.timerFired = true → es.foldl timeoutStep s = s := by
  induction es with
  | nil =>
    intro s _ _
    rfl
  | cons e rest ih =>
    intro s hall hf
    have he : e = TEvent.timerFire := hall e (List.mem_cons_self e rest)
    have hstep : timeoutStep s e = s := by
      rw [he]
      unfold timeoutStep
      simp [hf]
    rw [List.foldl_cons, hstep]
    exact ih s (fun x hx => hall x (List.mem_cons_of_mem e hx)) hf

/-- C3: a request whose handler never responds (its event trace consists
only of timer firings, at least one) produces exactly the single
response `[408]`; and the timer firing on a request whose response
already started sends nothing. -/
theorem timeout_single_408 :
    (∀ es : List TEvent, es ≠ [] → (∀ e ∈ es, e = TEvent.timerFire) →
      (timeoutRun es).responses = [408]) ∧
    (∀ s : TimeoutState, s.headersSent = true →
      (timeoutStep s TEvent.timerFire).responses = s.responses) := by
  constructor
  · intro es hne hall
    match es with
    | [] => exact absurd rfl hne
    | e :: rest =>
      have he : e = TEvent.timerFire := hall e (List.mem_cons_self e rest)
      have h1 : timeoutStep timeoutInit e =
          ⟨true, true, true, [408]⟩ := by
        rw [he]
        rfl
      unfold timeoutRun
      rw [List.foldl_cons, h1]
      rw [foldl_timeoutStep_fired rest ⟨true, true, true, [408]⟩
        (fun x hx => hall x (List.mem_cons_of_mem e hx)) rfl]
  · intro s hs
    unfold timeoutStep
    by_cases hf : s.timerFired
    · simp [hf]
    · by_cases hc : s.timerCancelled
      · simp [hf, hc]
      · simp [hf, hc, hs]

theorem timeout_single_408_witness :
    (timeoutRun [TEvent.timerFire]).responses = [408] ∧
    (timeoutStep ⟨true, true, true, [200]⟩ TEvent.timerFire).responses = [200] :=
  ⟨timeout_single_408.1 [TEvent.timerFire] (by decide) (by decide),
   timeout_single_408.2 ⟨true, true, true, [200]⟩ rfl⟩

/-! ### C4 — parser falls back to the placeholder recipe -/

/-- C4 (amended): whenever the fence-stripped reply is not valid JSON
(`parseResult = none`) or fails the field validation, the parser
returns the synthetic placeholder recipe instead of raising; the
placeholder's single instruction step carries the raw reply text
*provided the text is nonempty* (an empty reply gets the default
description instead, see the counterexample). -/
theorem parseRecipeResponse_fallback (text : String) (pr : Option Json)
    (h : pr = none ∨ ∃ j, pr = some j ∧ validRecipeJson j = false) :
    parseRecipeResponse text pr = getFallbackRecipe text ∧
    (text ≠ "" →
      (getFallbackRecipe text).instructions = Json.arr [Json.obj
        [("stepNumber", Json.num 1), ("description", Json.str text),
         ("duration", Json.str "As needed")]]) := by
  constructor
  · rcases h with h | ⟨j, hj, hv⟩
    · rw [h]
      rfl
    · rw [hj]
      unfold parseRecipeResponse
      simp [hv]
  · intro ht
    unfold getFallbackRecipe
    rw [if_neg ht]

theorem parseRecipeResponse_fallback_witness :
    parseRecipeResponse "not json" none = getFallbackRecipe "not json" ∧
    (getFallbackRecipe "not json").instructions = Json.arr [Json.obj
      [("stepNumber", Json.num 1), ("description", Json.str "not json"),
       ("duration", Json.str "As needed")]] :=
  ⟨(parseRecipeResponse_fallback "not json" none (Or.inl rfl)).1,
   (parseRecipeResponse_fallback "not json" none (Or.inl rfl)).2 (by decide)⟩

/-- C4 counterexample: the empty reply text is not valid JSON, yet the
placeholder built for it does not carry the raw (empty) reply text as
the step description — it carries the default sentence instead. -/
theorem parseRecipeResponse_fallback_counterexample :
    (parseRecipeResponse "" none).instructions ≠ Json.arr [Json.obj
      [("stepNumber", Json.num 1), ("description", Json.str ""),
       ("duration", Json.str "As needed")]] := by
  intro h
  have h2 : (parseRecipeResponse "" none).instructions = Json.arr [Json.obj
      [("stepNumber", Json.num 1),
       ("description", Json.str "Combine ingredients and cook as desired."),
       ("duration", Json.str "As needed")]] := rfl
  rw [h2] at h
  simp at h

/-! ### Rating lemmas shared by C6 and C7 -/

theorem countUser_cons (u : Nat) (x : Rating) (l : List Rating) :
    countUser u (x :: l) = (if x.user == u then 1 else 0) + countUser u l := by
  unfold countUser
  rw [List.filter_cons]
  split
  · simp only [List.length_cons, if_pos]
    omega
  · simp

theorem countUser_append_single (u : Nat) (l : List Rating) (x : Rating) :
    countUser u (l ++ [x]) = countUser u l + (if x.user == u then 1 else 0) := by
  unfold countUser
  rw [List.filter_append]
  rw [List.length_append]
  congr 1
  rw [List.filter_cons]
  split
  · rfl
  · rfl

theorem countUser_eq_zero_iff (u : Nat) (l : List Rating) :
    countUser u l = 0 ↔ l.filter (fun rt => rt.user == u) = [] := by
  unfold countUser
  exact List.length_eq_zero

theorem recipePreSave_ratings (r : RecipeM) :
    (recipePreSave r).ratings = r.ratings := rfl

theorem recipePreSave_avg (r : RecipeM) :
    (recipePreSave r).averageRating = r.averageRating := rfl

theorem recipePreSave_total (r : RecipeM) :
    (recipePreSave r).totalRatings = r.totalRatings := rfl

theorem updateFirstRating_none_count (uid : Nat) (v : Int) (c : Option String)
    (t : Nat) : ∀ l : List Rating,
    updateFirstRating uid v c t l = none ↔ countUser uid l = 0 := by
  intro l
  induction l with
  | nil => simp [updateFirstRating, countUser]
  | cons rt rest ih =>
    unfold updateFirstRating
    by_cases hu : (rt.user == uid) = true
    · rw [countUser_cons, hu]
      simp [hu]
    · have hne : (rt.user == uid) = false := by simpa using hu
      rw [countUser_cons, hne]
      simp only [hne, Bool.false_eq_true, if_false, Nat.zero_add]
      cases hrec : updateFirstRating uid v c t rest with
      | none =>
        simp only [hrec] at ih ⊢
        simpa using ih
      | some r2 =>
        simp only [hrec] at ih ⊢
        simpa using ih

theorem updateFirstRating_some_spec (uid : Nat) (v : Int) (c : Option String)
    (t : Nat) : ∀ (l l2 : List Rating),
    updateFirstRating uid v c t l = some l2 →
    l2.length = l.length ∧
    (∀ u, countUser u l2 = countUser u l) ∧
    (countUser uid l = 1 →
      l2.filter (fun rt => rt.user == uid) = [⟨uid, v, c, t⟩]) := by
  intro l
  induction l with
  | nil =>
    intro l2 h
    simp [updateFirstRating] at h
  | cons rt rest ih =>
    intro l2 h
    unfold updateFirstRating at h
    by_cases hu : (rt.user == uid) = true
    · simp only [hu, if_true, Option.some.injEq] at h
      have huser : rt.user = uid := by simpa using hu
      subst h
      refine ⟨by simp, ?_, ?_⟩
      · intro u
        rw [countUser_cons, countUser_cons]
      · intro hc1
        rw [countUser_cons, hu] at hc1
        simp only [if_true] at hc1
        have hr : countUser uid rest = 0 := by omega
        have hrest : rest.filter (fun x => x.user == uid) = [] :=
          (countUser_eq_zero_iff uid rest).mp hr
        rw [List.filter_cons]
        have hnew : ((⟨rt.user, v, c, t⟩ : Rating).user == uid) = true := hu
        simp only [hnew, if_true, hrest]
        rw [huser]
    · have hne : (rt.user == uid) = false := by simpa using hu
      simp only [hne, Bool.false_eq_true, if_false] at h
      cases hrec : updateFirstRating uid v c t rest with
      | none =>
        rw [hrec] at h
        simp at h
      | some r2 =>
        rw [hrec] at h
        simp only [Option.some.injEq] at h
        subst h
        obtain ⟨hlen, hcnt, hfil⟩ := ih r2 hrec
        refine ⟨by simp [hlen], ?_, ?_⟩
        · intro u
          rw [countUser_cons, countUser_cons, hcnt u]
        · intro hc1
          rw [countUser_cons, hne] at hc1
          simp only [Bool.false_eq_true, if_false, Nat.zero_add] at hc1
          rw [List.filter_cons]
          simp only [hne, Bool.false_eq_true, if_false]
          exact hfil hc1

theorem rateMutate_count_one (uid : Nat) (v : Int) (c : Option String)
    (t : Nat) (l : List Rating) (h : countUser uid l ≤ 1) :
    countUser uid (rateMutate uid v c t l) = 1 := by
  unfold rateMutate
  cases hrec : updateFirstRating uid v c t l with
  | none =>
    have h0 : countUser uid l = 0 :=
      (updateFirstRating_none_count uid v c t l).mp hrec
    rw [countUser_append_single, h0]
    simp
  | some l2 =>
    obtain ⟨_, hcnt, _⟩ := updateFirstRating_some_spec uid v c t l l2 hrec
    rw [hcnt uid]
    have hge : countUser uid l ≠ 0 := by
      intro h0
      rw [(updateFirstRating_none_count uid v c t l).mpr h0] at hrec
      exact Option.noConfusion hrec
    omega

theorem rateMutate_preserves_unique (uid : Nat) (v : Int) (c : Option String)
    (t : Nat) (l : List Rating) (h : ∀ u, countUser u l ≤ 1) :
    ∀ u, countUser u (rateMutate uid v c t l) ≤ 1 := by
  intro u
  unfold rateMutate
  cases hrec : updateFirstRating uid v c t l with
  | none =>
    have h0 : countUser uid l = 0 :=
      (updateFirstRating_none_count uid v c t l).mp hrec
    rw [countUser_append_single]
    by_cases hu : ((⟨uid, v, c, t⟩ : Rating).user == u) = true
    · have : uid = u := by simpa using hu
      subst this
      rw [h0, hu]
      simp
    · have hne : ((⟨uid, v, c, t⟩ : Rating).user == u) = false := by simpa using hu
      rw [hne]
      simp only [Bool.false_eq_true, if_false, Nat.add_zero]
      exact h u
  | some l2 =>
    obtain ⟨_, hcnt, _⟩ := updateFirstRating_some_spec uid v c t l l2 hrec
    rw [hcnt u]
    exact h u

theorem rateMutate_replaces (uid : Nat) (v : Int) (c : Option String)
    (t : Nat) (l : List Rating) (h : countUser uid l = 1) :
    (rateMutate uid v c t l).length = l.length ∧
    (rateMutate uid v c t l).filter (fun rt => rt.user == uid) = [⟨uid, v, c, t⟩] := by
  unfold rateMutate
  cases hrec : updateFirstRating uid v c t l with
  | none =>
    have h0 : countUser uid l = 0 :=
      (updateFirstRating_none_count uid v c t l).mp hrec
    omega
  | some l2 =>
    obtain ⟨hlen, _, hfil⟩ := updateFirstRating_some_spec uid v c t l l2 hrec
    exact ⟨hlen, hfil h⟩

/-! ### C6 — derived rating fields -/

theorem foldl_add_eq_sum (l : List Rating) :
    ∀ a : ℚ, l.foldl (fun acc rt => acc + (rt.rating : ℚ)) a =
      a + (l.map (fun rt => (rt.rating : ℚ))).sum := by
  induction l with
  | nil =>
    intro a
    simp
  | cons rt rest ih =>
    intro a
    simp only [List.foldl_cons, List.map_cons, List.sum_cons]
    rw [ih (a + (rt.rating : ℚ))]
    ring

theorem updateAverageRating_spec (r : RecipeM) :
    (updateAverageRating r).averageRating = specMeanRating r.ratings ∧
    (updateAverageRating r).totalRatings = r.ratings.length ∧
    (updateAverageRating r).ratings = r.ratings := by
  unfold updateAverageRating specMeanRating
  by_cases h : r.ratings.length = 0
  · rw [if_pos h, if_pos h]
    exact ⟨rfl, h.symm, rfl⟩
  · rw [if_neg h, if_neg h]
    refine ⟨?_, rfl, rfl⟩
    show r.ratings.foldl (fun acc rt => acc + (rt.rating : ℚ)) 0 / (r.ratings.length : ℚ)
      = (r.ratings.map (fun rt => (rt.rating : ℚ))).sum / (r.ratings.length : ℚ)
    rw [foldl_add_eq_sum r.ratings 0]
    rw [zero_add]

/-- C6: after the rate operation, `averageRating` is the arithmetic
mean of the (possibly updated) ratings list and `totalRatings` its
length; and on an empty ratings list `updateAverageRating` sets both
to 0. -/
theorem rating_derived_fields (r : RecipeM) (uid : Nat) (v : Int)
    (c : Option String) (now : Nat) :
    ((rateRecipeUpdate r uid v c now).averageRating =
      specMeanRating (rateRecipeUpdate r uid v c now).ratings ∧
     (rateRecipeUpdate r uid v c now).totalRatings =
      (rateRecipeUpdate r uid v c now).ratings.length) ∧
    (r.ratings = [] →
      (updateAverageRating r).averageRating = 0 ∧
      (updateAverageRating r).totalRatings = 0) := by
  constructor
  · have h := updateAverageRating_spec
      { r with ratings := rateMutate uid v c now r.ratings }
    unfold rateRecipeUpdate
    rw [recipePreSave_avg, recipePreSave_ratings, recipePreSave_total, h.2.2]
    exact ⟨h.1, h.2.1⟩
  · intro he
    have h := updateAverageRating_spec r
    constructor
    · rw [h.1, he]
      rfl
    · rw [h.2.1, he]
      rfl

theorem rating_derived_fields_witness :
    ((rateRecipeUpdate ⟨⟨some 0, some 0, some 0⟩, [], 0, 0⟩ 1 5 none 0).averageRating =
      specMeanRating (rateRecipeUpdate ⟨⟨some 0, some 0, some 0⟩, [], 0, 0⟩ 1 5 none 0).ratings ∧
     (rateRecipeUpdate ⟨⟨some 0, some 0, some 0⟩, [], 0, 0⟩ 1 5 none 0).totalRatings =
      (rateRecipeUpdate ⟨⟨some 0, some 0, some 0⟩, [], 0, 0⟩ 1 5 none 0).ratings.length) ∧
    ((updateAverageRating ⟨⟨some 0, some 0, some 0⟩, [], 0, 0⟩).averageRating = 0 ∧
     (updateAverageRating ⟨⟨some 0, some 0, some 0⟩, [], 0, 0⟩).totalRatings = 0) :=
  ⟨(rating_derived_fields ⟨⟨some 0, some 0, some 0⟩, [], 0, 0⟩ 1 5 none 0).1,
   (rating_derived_fields ⟨⟨some 0, some 0, some 0⟩, [], 0, 0⟩ 1 5 none 0).2 rfl⟩

/-! ### C7 — rating twice replaces, no duplicate entries -/

/-- C7: starting from a recipe whose ratings list has at most one entry
per user, rating once and then rating again as the same user keeps the
list length unchanged, leaves exactly one entry for that user — the
second rating's score, comment and timestamp — and preserves the
at-most-one-entry-per-user invariant. -/
theorem rate_twice_replaces (r : RecipeM) (uid : Nat) (v1 v2 : Int)
    (c1 c2 : Option String) (t1 t2 : Nat)
    (hinv : ∀ u, countUser u r.ratings ≤ 1) :
    (rateRecipeUpdate (rateRecipeUpdate r uid v1 c1 t1) uid v2 c2 t2).ratings.length
      = (rateRecipeUpdate r uid v1 c1 t1).ratings.length ∧
    (rateRecipeUpdate (rateRecipeUpdate r uid v1 c1 t1) uid v2 c2 t2).ratings.filter
      (fun rt => rt.user == uid) = [⟨uid, v2, c2, t2⟩] ∧
    (∀ u, countUser u
      (rateRecipeUpdate (rateRecipeUpdate r uid v1 c1 t1) uid v2 c2 t2).ratings ≤ 1) := by
  have hgen : ∀ (x : RecipeM) (v : Int) (c : Option String) (t : Nat),
      (rateRecipeUpdate x uid v c t).ratings = rateMutate uid v c t x.ratings := by
    intro x v c t
    unfold rateRecipeUpdate
    rw [recipePreSave_ratings, (updateAverageRating_spec _).2.2]
  have hr1 : (rateRecipeUpdate r uid v1 c1 t1).ratings =
      rateMutate uid v1 c1 t1 r.ratings := hgen r v1 c1 t1
  have hr2 : (rateRecipeUpdate (rateRecipeUpdate r uid v1 c1 t1) uid v2 c2 t2).ratings =
      rateMutate uid v2 c2 t2 (rateMutate uid v1 c1 t1 r.ratings) := by
    rw [hgen (rateRecipeUpdate r uid v1 c1 t1) v2 c2 t2, hr1]
  have hinv1 : ∀ u, countUser u (rateMutate uid v1 c1 t1 r.ratings) ≤ 1 :=
    rateMutate_preserves_unique uid v1 c1 t1 r.ratings hinv
  have hone : countUser uid (rateMutate uid v1 c1 t1 r.ratings) = 1 :=
    rateMutate_count_one uid v1 c1 t1 r.ratings (hinv uid)
  obtain ⟨hlen, hfil⟩ := rateMutate_replaces uid v2 c2 t2
    (rateMutate uid v1 c1 t1 r.ratings) hone
  refine ⟨?_, ?_, ?_⟩
  · rw [hr2, hr1, hlen]
  · rw [hr2, hfil]
  · intro u
    rw [hr2]
    exact rateMutate_preserves_unique uid v2 c2 t2 _ hinv1 u

theorem rate_twice_replaces_witness :
    (rateRecipeUpdate (rateRecipeUpdate ⟨⟨some 0, some 0, some 0⟩, [], 0, 0⟩ 1 4 none 10)
      1 2 (some "ok") 20).ratings.length
      = (rateRecipeUpdate ⟨⟨some 0, some 0, some 0⟩, [], 0, 0⟩ 1 4 none 10).ratings.length ∧
    (rateRecipeUpdate (rateRecipeUpdate ⟨⟨some 0, some 0, some 0⟩, [], 0, 0⟩ 1 4 none 10)
      1 2 (some "ok") 20).ratings.filter (fun rt => rt.user == 1)
      = [⟨1, 2, some "ok", 20⟩] ∧
    countUser 7
      (rateRecipeUpdate (rateRecipeUpdate ⟨⟨some 0, some 0, some 0⟩, [], 0, 0⟩ 1 4 none 10)
        1 2 (some "ok") 20).ratings ≤ 1 :=
  ⟨(rate_twice_replaces ⟨⟨some 0, some 0, some 0⟩, [], 0, 0⟩ 1 4 2 none (some "ok") 10 20
      (fun u => by simp [countUser])).1,
   (rate_twice_replaces ⟨⟨some 0, some 0, some 0⟩, [], 0, 0⟩ 1 4 2 none (some "ok") 10 20
      (fun u => by simp [countUser])).2.1,
   (rate_twice_replaces ⟨⟨some 0, some 0, some 0⟩, [], 0, 0⟩ 1 4 2 none (some "ok") 10 20
      (fun u => by simp [countUser])).2.2 7⟩

end Cookly
